import Mathlib

/-
Shallow embedding of the SyncFlow issue-tracking backend
(Express + Prisma routes in src/backend/routes/auth.js,
src/backend/routes/projects.js and the issues router).

The relational store is modelled as explicit lists of rows; each route
handler becomes a function from the database state (plus the payload the
handler reads from the request) to the new database state and the HTTP
response.  The external primitives that the spec excludes from scope are
parameters: bcrypt hashes are passed in as strings, Math.random and
Date.now as naturals, Prisma-generated ids as strings.  Machine-managed
columns that no claim mentions (Issue.updatedAt) are omitted.
-/

namespace SyncFlow

/-- Row of the User table (id, name, email unique, password_hash). -/
structure User where
  id : String
  name : String
  email : String
  passwordHash : String
deriving DecidableEq, Repr

/-- Row of the Otp table (id, email, otp code, createdAt, expires_at). -/
structure Otp where
  id : String
  email : String
  otp : String
  createdAt : Nat
  expiresAt : Nat
deriving DecidableEq, Repr

/-- Row of the Project table (id, name, createdAt, ownerId). -/
structure Project where
  id : String
  name : String
  createdAt : Nat
  ownerId : String
deriving DecidableEq, Repr

/-- Issue.status enum: open, in_progress, done. -/
inductive Status where
  | «open»
  | in_progress
  | done
deriving DecidableEq, Repr

/-- Issue.priority enum: low, medium, high. -/
inductive Priority where
  | low
  | medium
  | high
deriving DecidableEq, Repr

/-- Row of the Issue table.  updatedAt is a storage-managed timestamp no
claim refers to, so it is not modelled. -/
structure Issue where
  id : String
  title : String
  description : Option String
  status : Status
  priority : Priority
  createdAt : Nat
  projectId : String
deriving DecidableEq, Repr

/-- Row of the ProjectCollaborator join table. -/
structure ProjectCollaborator where
  projectId : String
  userId : String
deriving DecidableEq, Repr

/-- Row of the IssueAssignee join table; the schema has a unique
constraint on (issueId, userId) and a foreign key from userId to User. -/
structure IssueAssignee where
  issueId : String
  userId : String
deriving DecidableEq, Repr

/-- The whole relational state. -/
structure DB where
  users : List User
  otps : List Otp
  projects : List Project
  collaborators : List ProjectCollaborator
  issues : List Issue
  assignees : List IssueAssignee
deriving DecidableEq, Repr

/-- Outcome of a route handler: the HTTP payload on success, or an HTTP
error status with the JSON message the handler sends. -/
inductive ApiResult (α : Type) where
  | ok (val : α)
  | err (status : Nat) (message : String)
deriving DecidableEq, Repr

/-- True when the result carries a success payload. -/
def ApiResult.isOk : ApiResult α → Bool
  | .ok _ => true
  | .err _ _ => false

/-- prisma.user lookup by id (foreign-key target of assignee writes). -/
def userExists (db : DB) (uid : String) : Bool :=
  db.users.any (fun u => u.id == uid)

/-- prisma.project.findUnique by id. -/
def findProject (db : DB) (pid : String) : Option Project :=
  db.projects.find? (fun p => p.id == pid)

/-- prisma.issue.findUnique by id. -/
def findIssue (db : DB) (iid : String) : Option Issue :=
  db.issues.find? (fun i => i.id == iid)

/-- prisma.issue.findUnique with include project: the issue together with
its parent project (present by the projectId foreign key). -/
def findIssueWithProject (db : DB) (iid : String) : Option (Issue × Project) :=
  (findIssue db iid).bind fun i => (findProject db i.projectId).map fun p => (i, p)

/-- Membership in the ProjectCollaborator table. -/
def isCollaborator (db : DB) (pid uid : String) : Bool :=
  db.collaborators.any (fun c => c.projectId == pid && c.userId == uid)

/-- Membership in the IssueAssignee table. -/
def isAssigned (db : DB) (iid uid : String) : Bool :=
  db.assignees.any (fun a => a.issueId == iid && a.userId == uid)

/-- The userIds of the assignee rows of one issue, in table order. -/
def assigneeIdsOf (db : DB) (iid : String) : List String :=
  (db.assignees.filter (fun a => a.issueId == iid)).map (fun a => a.userId)

/-- Number of assignee rows linking one issue to one user (the unique
constraint keeps this at most 1 in reachable states). -/
def linkCount (db : DB) (iid uid : String) : Nat :=
  (db.assignees.filter (fun a => a.issueId == iid && a.userId == uid)).length

/-- Boolean duplicate-freedom check on a list of ids. -/
def nodupB : List String → Bool
  | [] => true
  | x :: xs => !(xs.contains x) && nodupB xs

/-- A nested createMany of assignee or collaborator rows succeeds exactly
when the ids repeat no element (unique constraint) and each id references
an existing user (foreign key); otherwise the enclosing Prisma call
throws. -/
def createManyOk (db : DB) (ids : List String) : Bool :=
  nodupB ids && ids.all (fun u => userExists db u)

/-- orderBy createdAt desc: sort by a numeric key, largest first. -/
def sortDesc (key : α → Nat) (l : List α) : List α :=
  l.insertionSort (fun a b => key b ≤ key a)

/-- A JSON field of a request body that the handlers probe with
the pattern `v && Array.isArray(v) && v.length > 0`: it can be absent,
present but not an array, or an array of ids. -/
inductive JsArr where
  | missing
  | notArray
  | arr (ids : List String)
deriving DecidableEq, Repr

/-- The guard `v && Array.isArray(v) && v.length > 0`: some list exactly
when the field is a non-empty array. -/
def validArr : JsArr → Option (List String)
  | .arr (x :: xs) => some (x :: xs)
  | _ => none

/-! ### Credential service (src/backend/routes/auth.js) -/

/-- The 10-minute OTP lifetime, in milliseconds. -/
def tenMinutesMs : Nat := 10 * 60 * 1000

/-- Math.floor(100000 + Math.random() * 900000): the random draw is
modelled as an arbitrary natural, reduced to the same range. -/
def otpCode (rand : Nat) : Nat := 100000 + rand % 900000

/-- An outbound password-reset email. -/
structure MailMsg where
  toAddr : String
  body : String
deriving DecidableEq, Repr

/-- What POST /api/auth/forgot-password produces: the new state, the HTTP
status and message, and the email dispatched (if any). -/
structure ForgotResult where
  db : DB
  status : Nat
  message : String
  mail : Option MailMsg
deriving DecidableEq, Repr

/-- POST /api/auth/forgot-password.  now and rand stand for Date.now()
and Math.random(); oid is the id Prisma generates for the new Otp row. -/
def requestPasswordReset (db : DB) (email : String) (now rand : Nat) (oid : String) :
    ForgotResult :=
  match db.users.find? (fun u => u.email == email) with
  | none =>
      { db := db
        status := 200
        message := "If a user with that email exists, an OTP has been sent."
        mail := none }
  | some _ =>
      let code := otpCode rand
      let record : Otp :=
        { id := oid, email := email, otp := toString code
          createdAt := now, expiresAt := now + tenMinutesMs }
      { db := { db with otps := db.otps ++ [record] }
        status := 200
        message := "OTP sent to your email successfully."
        mail := some
          { toAddr := email
            body := "Your OTP for password reset is: " ++ toString code ++
              ". It will expire in 10 minutes." } }

/-- The findFirst condition of POST /api/auth/verify-otp: matching email
and code, with expires_at strictly greater than now. -/
def otpMatches (email code : String) (now : Nat) (r : Otp) : Bool :=
  r.email == email && r.otp == code && decide (now < r.expiresAt)

/-- POST /api/auth/verify-otp.  newHash stands for the bcrypt hash of the
submitted new password.  The handler updates the user (throwing P2025,
surfaced as a 500, when no user has this email) and then deletes the
consumed Otp row by id. -/
def verifyOtp (db : DB) (email code newHash : String) (now : Nat) :
    DB × ApiResult Unit :=
  match db.otps.find? (otpMatches email code now) with
  | none => (db, .err 400 "Invalid or expired OTP.")
  | some record =>
      if db.users.any (fun u => u.email == email) then
        ({ db with
            users := db.users.map
              (fun u => if u.email == email then { u with passwordHash := newHash } else u)
            otps := db.otps.filter (fun r => r.id != record.id) },
         .ok ())
      else
        (db, .err 500 "Server error during password reset.")

/-! ### Project service (src/backend/routes/projects.js) -/

/-- The OR filter of GET /api/projects: owner, or some issue of the
project is assigned to the caller, or the caller is a collaborator. -/
def projectVisible (db : DB) (uid : String) (p : Project) : Bool :=
  p.ownerId == uid
    || db.issues.any (fun i => i.projectId == p.id && isAssigned db i.id uid)
    || isCollaborator db p.id uid

/-- The issues of a project that are assigned to the caller (the filtered
include of GET /api/projects). -/
def assignedIssues (db : DB) (uid pid : String) : List Issue :=
  db.issues.filter (fun i => i.projectId == pid && isAssigned db i.id uid)

/-- One element of the GET /api/projects response: the project plus the
userRole and assignedIssuesCount annotations the handler adds. -/
structure ProjectEntry where
  project : Project
  userRole : String
  assignedIssuesCount : Nat
deriving DecidableEq, Repr

/-- GET /api/projects: filter to visible projects, order by createdAt
descending, annotate with userRole and assignedIssuesCount. -/
def listProjects (db : DB) (uid : String) : List ProjectEntry :=
  (sortDesc (fun p => p.createdAt) (db.projects.filter (projectVisible db uid))).map
    (fun p =>
      { project := p
        userRole := if p.ownerId == uid then "owner" else "collaborator"
        assignedIssuesCount := (assignedIssues db uid p.id).length })

/-- Modelled from the spec (no roleOf function exists in the source; the
spec defines it in its access-control section): owner if
project.ownerId == user.id; collaborator if a ProjectCollaborator row
links them; else none. -/
def roleOfSpec (db : DB) (uid : String) (p : Project) : String :=
  if p.ownerId == uid then "owner"
  else if isCollaborator db p.id uid then "collaborator"
  else "none"

/-- POST /api/projects: name required; the project and its initial
collaborator rows are created by a single nested Prisma create, so a
failing nested createMany (duplicate id or unknown user) fails the whole
call.  newId and now stand for the generated id and CURRENT_TIMESTAMP. -/
def createProject (db : DB) (uid name : String) (collaboratorIds : Option (List String))
    (newId : String) (now : Nat) : DB × ApiResult Unit :=
  if name == "" then (db, .err 400 "Project name is required.")
  else
    let ids := collaboratorIds.getD []
    if createManyOk db ids then
      ({ db with
          projects := db.projects ++ [{ id := newId, name := name, createdAt := now, ownerId := uid }]
          collaborators := db.collaborators ++ ids.map (fun u => { projectId := newId, userId := u }) },
       .ok ())
    else (db, .err 500 "Failed to create project.")

/-- GET /api/projects/:id: findFirst with id plus the owner-or-collaborator
OR condition; a miss (absent project, or no access) is answered 404 with
one fixed message. -/
def getProject (db : DB) (uid pid : String) : ApiResult (Project × String) :=
  match db.projects.find?
      (fun p => p.id == pid && (p.ownerId == uid || isCollaborator db p.id uid)) with
  | none => .err 404 "Project not found or access denied"
  | some p => .ok (p, if p.ownerId == uid then "owner" else "collaborator")

/-! ### Issue service (the issues router) -/

/-- Case-insensitive substring test at the head of the haystack. -/
def subAt : List Char → List Char → Bool
  | [], _ => true
  | _ :: _, [] => false
  | n :: ns, h :: hs => n == h && subAt ns hs

/-- Substring test on character lists. -/
def hasSub (needle : List Char) : List Char → Bool
  | [] => subAt needle []
  | h :: hs => subAt needle (h :: hs) || hasSub needle hs

/-- The Prisma filter title contains search, mode insensitive: both sides
are lowered character-wise before the substring test. -/
def titleMatches (search title : String) : Bool :=
  hasSub (search.toList.map Char.toLower) (title.toList.map Char.toLower)

/-- The query filters of GET /api/issues (empty query params are falsy in
the handler, hence absent here). -/
structure IssueFilters where
  projectId : Option String := none
  status : Option Status := none
  priority : Option Priority := none
  search : Option String := none

/-- The issue is in a project owned by the caller (relation filter
project.ownerId == userId). -/
def ownsProjectOf (db : DB) (uid : String) (i : Issue) : Bool :=
  match findProject db i.projectId with
  | some p => p.ownerId == uid
  | none => false

/-- The where object GET /api/issues builds: each supplied filter, and the
OR of owning the parent project or being an assignee. -/
def issueWhere (db : DB) (uid : String) (f : IssueFilters) (i : Issue) : Bool :=
  (match f.projectId with | some pid => i.projectId == pid | none => true)
    && (match f.status with | some s => i.status == s | none => true)
    && (match f.priority with | some p => i.priority == p | none => true)
    && (match f.search with | some s => titleMatches s i.title | none => true)
    && (ownsProjectOf db uid i || isAssigned db i.id uid)

/-- GET /api/issues: findMany with the filter, orderBy createdAt desc. -/
def listIssues (db : DB) (uid : String) (f : IssueFilters) : List Issue :=
  sortDesc (fun i => i.createdAt) (db.issues.filter (issueWhere db uid f))

/-- POST /api/issues: title and projectId required (empty strings are
falsy), owner-only; priority defaults to medium and status to open; the
issue row and its initial assignee rows are one nested Prisma create, so
a failing nested create fails the whole call and writes nothing. -/
def createIssue (db : DB) (uid title : String) (description : Option String)
    (priority : Option Priority) (pid : String) (assigneeIds : JsArr)
    (newId : String) (now : Nat) : DB × ApiResult Unit :=
  if title == "" || pid == "" then
    (db, .err 400 "Title and projectId are required.")
  else
    match findProject db pid with
    | none => (db, .err 404 "Project not found.")
    | some project =>
      if project.ownerId != uid then
        (db, .err 403 "Only project owner can create issues.")
      else
        let ids := (validArr assigneeIds).getD []
        if createManyOk db ids then
          ({ db with
              issues := db.issues ++
                [{ id := newId, title := title, description := description
                   status := .«open», priority := priority.getD .medium
                   createdAt := now, projectId := pid }]
              assignees := db.assignees ++ ids.map (fun u => { issueId := newId, userId := u }) },
           .ok ())
        else (db, .err 500 "Failed to create issue.")

/-- The body of PATCH /api/issues/:issueId: a field is updated exactly
when it is not undefined in the request body.  description may be set to
null (inner none). -/
structure IssuePatch where
  title : Option String := none
  description : Option (Option String) := none
  status : Option Status := none
  priority : Option Priority := none
  assigneeIds : Option (List String) := none

/-- The updateData object: present fields overwrite, absent fields keep
their prior value. -/
def applyPatchFields (p : IssuePatch) (i : Issue) : Issue :=
  { i with
      title := p.title.getD i.title
      description := p.description.getD i.description
      status := p.status.getD i.status
      priority := p.priority.getD i.priority }

/-- prisma.issue.update restricted to the scalar field part of the
patch. -/
def updateIssueRecord (db : DB) (iid : String) (p : IssuePatch) : DB :=
  { db with issues := db.issues.map (fun i => if i.id == iid then applyPatchFields p i else i) }

/-- PATCH /api/issues/:issueId.  When assigneeIds is present the handler
first runs a standalone prisma.issueAssignee.deleteMany for the issue and
only then calls prisma.issue.update, whose nested create of the new
rows (when the list is non-empty) can still fail; the two statements are
not wrapped in a transaction. -/
def updateIssue (db : DB) (uid iid : String) (p : IssuePatch) : DB × ApiResult Unit :=
  match findIssueWithProject db iid with
  | none => (db, .err 404 "Issue not found.")
  | some (_, project) =>
    if project.ownerId != uid then
      (db, .err 403 "Only project owner can update issues.")
    else
      match p.assigneeIds with
      | none => (updateIssueRecord db iid p, .ok ())
      | some ids =>
        let db1 := { db with assignees := db.assignees.filter (fun a => a.issueId != iid) }
        if ids.isEmpty then (updateIssueRecord db1 iid p, .ok ())
        else if createManyOk db1 ids then
          (updateIssueRecord
            { db1 with assignees := db1.assignees ++ ids.map (fun u => { issueId := iid, userId := u }) }
            iid p,
           .ok ())
        else (db1, .err 500 "Failed to update issue.")

/-- One iteration of the per-user create loop of POST
/api/issues/:issueId/assign: a duplicate-key failure (P2002) is swallowed,
any other failure (here: unknown user, a foreign-key violation) is
rethrown and ends the call with the rows created so far kept. -/
def assignLoop (db : DB) (iid : String) : List String → DB × Bool
  | [] => (db, true)
  | u :: us =>
    if db.assignees.any (fun a => a.issueId == iid && a.userId == u) then
      assignLoop db iid us
    else if userExists db u then
      assignLoop { db with assignees := db.assignees ++ [{ issueId := iid, userId := u }] } iid us
    else (db, false)

/-- POST /api/issues/:issueId/assign: userIds must be a non-empty array,
owner-only; each id is created individually, ignoring already-assigned
ids. -/
def assignUsers (db : DB) (uid iid : String) (userIds : JsArr) : DB × ApiResult Unit :=
  match validArr userIds with
  | none => (db, .err 400 "userIds array is required.")
  | some ids =>
    match findIssueWithProject db iid with
    | none => (db, .err 404 "Issue not found.")
    | some (_, project) =>
      if project.ownerId != uid then
        (db, .err 403 "Only project owner can assign users.")
      else
        let step := assignLoop db iid ids
        if step.2 then (step.1, .ok ()) else (step.1, .err 500 "Failed to assign users.")

/-- POST /api/issues/:issueId/unassign: owner-only; when userIds is a
non-empty array only those rows are targeted, otherwise every assignee
row of the issue is; the matching rows are read first and their users
reported back as removedAssignees (modelled by their userIds), then
deleted. -/
def unassignUsers (db : DB) (uid iid : String) (userIds : JsArr) :
    DB × ApiResult (List String) :=
  match findIssueWithProject db iid with
  | none => (db, .err 404 "Issue not found.")
  | some (_, project) =>
    if project.ownerId != uid then
      (db, .err 403 "Only project owner can unassign users.")
    else
      let cond : IssueAssignee → Bool :=
        match validArr userIds with
        | some ids => fun a => a.issueId == iid && ids.contains a.userId
        | none => fun a => a.issueId == iid
      let removed := db.assignees.filter cond
      ({ db with assignees := db.assignees.filter (fun a => !(cond a)) },
       .ok (removed.map (fun a => a.userId)))

/-- DELETE /api/issues/:issueId: owner-only; deleting the issue cascades
to its assignee rows per the schema. -/
def deleteIssue (db : DB) (uid iid : String) : DB × ApiResult Unit :=
  match findIssueWithProject db iid with
  | none => (db, .err 404 "Issue not found.")
  | some (_, project) =>
    if project.ownerId != uid then
      (db, .err 403 "Only project owner can delete issues.")
    else
      ({ db with
          issues := db.issues.filter (fun i => i.id != iid)
          assignees := db.assignees.filter (fun a => a.issueId != iid) },
       .ok ())

/-! ### General lemmas about the embedding -/

/-- Membership is invariant under the descending sort. -/
theorem mem_sortDesc {key : α → Nat} {l : List α} {a : α} :
    a ∈ sortDesc key l ↔ a ∈ l :=
  (List.perm_insertionSort _ l).mem_iff

/-- The descending sort is sorted by its key, largest first. -/
theorem pairwise_sortDesc (key : α → Nat) (l : List α) :
    (sortDesc key l).Pairwise (fun a b => key b ≤ key a) := by
  haveI : IsTotal α (fun a b => key b ≤ key a) := ⟨fun a b => Nat.le_total (key b) (key a)⟩
  haveI : IsTrans α (fun a b => key b ≤ key a) := ⟨fun _ _ _ hab hbc => Nat.le_trans hbc hab⟩
  exact List.sorted_insertionSort _ l

/-- findIssueWithProject reads only the issues and projects tables. -/
theorem findIssueWithProject_congr {db db' : DB} (iid : String)
    (hi : db'.issues = db.issues) (hp : db'.projects = db.projects) :
    findIssueWithProject db' iid = findIssueWithProject db iid := by
  simp [findIssueWithProject, findIssue, findProject, hi, hp]

/-! ### C4: project get conflates absence with lack of access -/

/-- C4: for every user and projectId, GET /api/projects/:id fails with the
one fixed 404 response exactly when no project row with that id grants the
caller read access (either no such project exists, or it exists but the
caller is neither owner nor collaborator), so the two failure cases are
indistinguishable: any two calls falling in the two cases return the
identical response. -/
theorem getProject_notFound_conflated :
    (∀ (db : DB) (uid pid : String),
      getProject db uid pid = .err 404 "Project not found or access denied" ↔
        ∀ p ∈ db.projects, p.id = pid →
          p.ownerId ≠ uid ∧ isCollaborator db p.id uid = false) ∧
    (∀ (db₁ : DB) (uid₁ pid₁ : String) (db₂ : DB) (uid₂ pid₂ : String),
      (∀ p ∈ db₁.projects, p.id ≠ pid₁) →
      (∀ p ∈ db₂.projects, p.id = pid₂ →
        p.ownerId ≠ uid₂ ∧ isCollaborator db₂ p.id uid₂ = false) →
      getProject db₁ uid₁ pid₁ = getProject db₂ uid₂ pid₂) := by
  have key : ∀ (db : DB) (uid pid : String),
      getProject db uid pid = .err 404 "Project not found or access denied" ↔
        ∀ p ∈ db.projects, p.id = pid →
          p.ownerId ≠ uid ∧ isCollaborator db p.id uid = false := by
    intro db uid pid
    constructor
    · intro h p hp hpid
      cases hfind : db.projects.find?
          (fun p => p.id == pid && (p.ownerId == uid || isCollaborator db p.id uid)) with
      | none =>
          have hnone := List.find?_eq_none.mp hfind p hp
          simp only [hpid, beq_self_eq_true, Bool.true_and, Bool.or_eq_true,
            beq_iff_eq, not_or, Bool.not_eq_true] at hnone
          rw [hpid]
          exact hnone
      | some q => simp [getProject, hfind] at h
    · intro h
      have hfind : db.projects.find?
          (fun p => p.id == pid && (p.ownerId == uid || isCollaborator db p.id uid)) = none := by
        refine List.find?_eq_none.mpr fun p hp => ?_
        by_cases hpid : p.id = pid
        · rcases h p hp hpid with ⟨ho, hc⟩
          rw [hpid] at hc
          simp [hpid, ho, hc]
        · simp [hpid]
      simp [getProject, hfind]
  refine ⟨key, fun db₁ uid₁ pid₁ db₂ uid₂ pid₂ h₁ h₂ => ?_⟩
  rw [(key db₁ uid₁ pid₁).mpr fun p hp hpid => absurd hpid (h₁ p hp),
    (key db₂ uid₂ pid₂).mpr h₂]

/-- Witness for C4 at a concrete state: one database without the project,
one with the project but an unrelated caller; both calls return the same
404. -/
theorem getProject_notFound_conflated_witness :
    getProject { users := [], otps := [], projects := [], collaborators := [],
                 issues := [], assignees := [] } "u1" "p1" =
    getProject { users := [], otps := [],
                 projects := [{ id := "p2", name := "n", createdAt := 0, ownerId := "owner2" }],
                 collaborators := [], issues := [], assignees := [] } "u2" "p2" :=
  getProject_notFound_conflated.2 _ "u1" "p1" _ "u2" "p2"
    (by decide) (by decide)

/-! ### C10: unassign with no userIds removes every assignee -/

/-- C10: when the project owner calls unassign with userIds absent, not an
array, or an empty array (all three rejected by the same guard), every
assignee row of the issue is deleted, rows of other issues are kept, and
removedAssignees reports exactly the users whose rows were removed. -/
theorem unassign_all_semantics :
    (∀ (db : DB) (uid iid : String) (userIds : JsArr) (issue : Issue) (project : Project),
      findIssueWithProject db iid = some (issue, project) →
      project.ownerId = uid →
      validArr userIds = none →
      unassignUsers db uid iid userIds =
        ({ db with assignees := db.assignees.filter (fun a => !(a.issueId == iid)) },
         .ok ((db.assignees.filter (fun a => a.issueId == iid)).map (fun a => a.userId)))) ∧
    (∀ (db : DB) (uid iid : String),
      unassignUsers db uid iid (.arr []) = unassignUsers db uid iid .missing ∧
      unassignUsers db uid iid .notArray = unassignUsers db uid iid .missing) := by
  constructor
  · intro db uid iid userIds issue project hfind howner hids
    simp [unassignUsers, hfind, howner, hids]
  · intro db uid iid
    constructor <;> rfl

/-- Witness for C10: owner removes all assignees of a two-assignee issue
by sending an empty array. -/
theorem unassign_all_semantics_witness :
    unassignUsers
      { users := [{ id := "A", name := "a", email := "a@x", passwordHash := "h" },
                  { id := "B", name := "b", email := "b@x", passwordHash := "h" },
                  { id := "C", name := "c", email := "c@x", passwordHash := "h" }],
        otps := [],
        projects := [{ id := "P", name := "proj", createdAt := 0, ownerId := "A" }],
        collaborators := [],
        issues := [{ id := "I", title := "t", description := none, status := .«open»,
                     priority := .medium, createdAt := 1, projectId := "P" }],
        assignees := [{ issueId := "I", userId := "B" }, { issueId := "I", userId := "C" }] }
      "A" "I" (.arr []) =
      ({ users := [{ id := "A", name := "a", email := "a@x", passwordHash := "h" },
                   { id := "B", name := "b", email := "b@x", passwordHash := "h" },
                   { id := "C", name := "c", email := "c@x", passwordHash := "h" }],
         otps := [],
         projects := [{ id := "P", name := "proj", createdAt := 0, ownerId := "A" }],
         collaborators := [],
         issues := [{ id := "I", title := "t", description := none, status := .«open»,
                      priority := .medium, createdAt := 1, projectId := "P" }],
         assignees := [] },
       .ok ["B", "C"]) := by
  rw [unassign_all_semantics.1 _ _ _ _
    { id := "I", title := "t", description := none, status := .«open»,
      priority := .medium, createdAt := 1, projectId := "P" }
    { id := "P", name := "proj", createdAt := 0, ownerId := "A" }
    (by decide) (by decide) (by decide)]
  decide

/-! ### C3: issue mutations are project-owner-only -/

/-- C3: each mutating issue operation (update, assign, unassign, delete)
called by anyone who is not the owner of the parent project of an existing
issue answers 403 Forbidden and leaves the state untouched (for assign,
after its userIds-shape validation), and each of these operations can
succeed only when the caller is that owner — assignees and collaborators
hold no mutation rights, since only project.ownerId is consulted. -/
theorem issue_mutations_owner_only :
    (∀ (db : DB) (uid iid : String) (p : IssuePatch) (issue : Issue) (project : Project),
      findIssueWithProject db iid = some (issue, project) → project.ownerId ≠ uid →
      updateIssue db uid iid p = (db, .err 403 "Only project owner can update issues.")) ∧
    (∀ (db : DB) (uid iid : String) (userIds : JsArr) (ids : List String)
        (issue : Issue) (project : Project),
      validArr userIds = some ids →
      findIssueWithProject db iid = some (issue, project) → project.ownerId ≠ uid →
      assignUsers db uid iid userIds = (db, .err 403 "Only project owner can assign users.")) ∧
    (∀ (db : DB) (uid iid : String) (userIds : JsArr) (issue : Issue) (project : Project),
      findIssueWithProject db iid = some (issue, project) → project.ownerId ≠ uid →
      unassignUsers db uid iid userIds = (db, .err 403 "Only project owner can unassign users.")) ∧
    (∀ (db : DB) (uid iid : String) (issue : Issue) (project : Project),
      findIssueWithProject db iid = some (issue, project) → project.ownerId ≠ uid →
      deleteIssue db uid iid = (db, .err 403 "Only project owner can delete issues.")) ∧
    (∀ (db : DB) (uid iid : String) (p : IssuePatch),
      (updateIssue db uid iid p).2.isOk = true →
      ∃ issue project, findIssueWithProject db iid = some (issue, project) ∧
        project.ownerId = uid) ∧
    (∀ (db : DB) (uid iid : String) (userIds : JsArr),
      (assignUsers db uid iid userIds).2.isOk = true →
      ∃ issue project, findIssueWithProject db iid = some (issue, project) ∧
        project.ownerId = uid) ∧
    (∀ (db : DB) (uid iid : String) (userIds : JsArr),
      (unassignUsers db uid iid userIds).2.isOk = true →
      ∃ issue project, findIssueWithProject db iid = some (issue, project) ∧
        project.ownerId = uid) ∧
    (∀ (db : DB) (uid iid : String),
      (deleteIssue db uid iid).2.isOk = true →
      ∃ issue project, findIssueWithProject db iid = some (issue, project) ∧
        project.ownerId = uid) := by
  refine ⟨?_, ?_, ?_, ?_, ?_, ?_, ?_, ?_⟩
  · intro db uid iid p issue project hfind howner
    simp [updateIssue, hfind, bne_iff_ne, howner]
  · intro db uid iid userIds ids issue project hvalid hfind howner
    simp [assignUsers, hvalid, hfind, bne_iff_ne, howner]
  · intro db uid iid userIds issue project hfind howner
    simp [unassignUsers, hfind, bne_iff_ne, howner]
  · intro db uid iid issue project hfind howner
    simp [deleteIssue, hfind, bne_iff_ne, howner]
  · intro db uid iid p h
    cases hfind : findIssueWithProject db iid with
    | none => simp [updateIssue, hfind, ApiResult.isOk] at h
    | some ip =>
      obtain ⟨issue, project⟩ := ip
      refine ⟨issue, project, rfl, ?_⟩
      by_cases howner : project.ownerId = uid
      · exact howner
      · simp [updateIssue, hfind, bne_iff_ne, howner, ApiResult.isOk] at h
  · intro db uid iid userIds h
    cases hvalid : validArr userIds with
    | none => simp [assignUsers, hvalid, ApiResult.isOk] at h
    | some ids =>
      cases hfind : findIssueWithProject db iid with
      | none => simp [assignUsers, hvalid, hfind, ApiResult.isOk] at h
      | some ip =>
        obtain ⟨issue, project⟩ := ip
        refine ⟨issue, project, rfl, ?_⟩
        by_cases howner : project.ownerId = uid
        · exact howner
        · simp [assignUsers, hvalid, hfind, bne_iff_ne, howner, ApiResult.isOk] at h
  · intro db uid iid userIds h
    cases hfind : findIssueWithProject db iid with
    | none => simp [unassignUsers, hfind, ApiResult.isOk] at h
    | some ip =>
      obtain ⟨issue, project⟩ := ip
      refine ⟨issue, project, rfl, ?_⟩
      by_cases howner : project.ownerId = uid
      · exact howner
      · simp [unassignUsers, hfind, bne_iff_ne, howner, ApiResult.isOk] at h
  · intro db uid iid h
    cases hfind : findIssueWithProject db iid with
    | none => simp [deleteIssue, hfind, ApiResult.isOk] at h
    | some ip =>
      obtain ⟨issue, project⟩ := ip
      refine ⟨issue, project, rfl, ?_⟩
      by_cases howner : project.ownerId = uid
      · exact howner
      · simp [deleteIssue, hfind, bne_iff_ne, howner, ApiResult.isOk] at h

/-- Witness for C3: an assignee of the issue who is also a collaborator of
the project, but not its owner, is refused the update and nothing
changes. -/
theorem issue_mutations_owner_only_witness :
    updateIssue
      { users := [{ id := "A", name := "a", email := "a@x", passwordHash := "h" },
                  { id := "B", name := "b", email := "b@x", passwordHash := "h" }],
        otps := [],
        projects := [{ id := "P", name := "proj", createdAt := 0, ownerId := "A" }],
        collaborators := [{ projectId := "P", userId := "B" }],
        issues := [{ id := "I", title := "t", description := none, status := .«open»,
                     priority := .medium, createdAt := 1, projectId := "P" }],
        assignees := [{ issueId := "I", userId := "B" }] }
      "B" "I" { title := some "hijacked" } =
      ({ users := [{ id := "A", name := "a", email := "a@x", passwordHash := "h" },
                   { id := "B", name := "b", email := "b@x", passwordHash := "h" }],
         otps := [],
         projects := [{ id := "P", name := "proj", createdAt := 0, ownerId := "A" }],
         collaborators := [{ projectId := "P", userId := "B" }],
         issues := [{ id := "I", title := "t", description := none, status := .«open»,
                      priority := .medium, createdAt := 1, projectId := "P" }],
         assignees := [{ issueId := "I", userId := "B" }] },
       .err 403 "Only project owner can update issues.") :=
  issue_mutations_owner_only.1 _ "B" "I" { title := some "hijacked" }
    { id := "I", title := "t", description := none, status := .«open»,
      priority := .medium, createdAt := 1, projectId := "P" }
    { id := "P", name := "proj", createdAt := 0, ownerId := "A" }
    (by decide) (by decide)

/-! ### C7: issue list filtering, search and ordering -/

/-- C7: GET /api/issues returns exactly the issues lying in a project the
caller owns or to which the caller is assigned that satisfy every supplied
filter (projectId, status, priority, and search matched case-insensitively
as a substring of the title), ordered by creation time, newest first; the
spec scenario for the search filter holds concretely. -/
theorem listIssues_characterization :
    (∀ (db : DB) (uid : String) (f : IssueFilters) (i : Issue),
      i ∈ listIssues db uid f ↔
        i ∈ db.issues ∧
        (ownsProjectOf db uid i = true ∨ isAssigned db i.id uid = true) ∧
        (∀ pid, f.projectId = some pid → i.projectId = pid) ∧
        (∀ s, f.status = some s → i.status = s) ∧
        (∀ p, f.priority = some p → i.priority = p) ∧
        (∀ s, f.search = some s → titleMatches s i.title = true)) ∧
    (∀ (db : DB) (uid : String) (f : IssueFilters),
      (listIssues db uid f).Pairwise (fun a b => b.createdAt ≤ a.createdAt)) ∧
    (titleMatches "login" "Fix login bug" = true ∧
      titleMatches "LOGIN" "Fix login bug" = true ∧
      titleMatches "login" "Fix signup bug" = false) := by
  refine ⟨?_, fun db uid f => pairwise_sortDesc _ _, by decide⟩
  intro db uid f i
  rw [listIssues, mem_sortDesc, List.mem_filter]
  rcases f with ⟨fp, fs, fpr, fse⟩
  cases fp <;> cases fs <;> cases fpr <;> cases fse <;>
    simp [issueWhere, Bool.and_eq_true, Bool.or_eq_true, beq_iff_eq, and_assoc,
      and_comm, and_left_comm]

/-- Witness for C7 on the spec scenario: searching login returns the issue
titled Fix login bug. -/
theorem listIssues_characterization_witness :
    ({ id := "I1", title := "Fix login bug", description := none, status := .«open»,
       priority := .medium, createdAt := 2, projectId := "P" } : Issue) ∈
      listIssues
        { users := [{ id := "A", name := "a", email := "a@x", passwordHash := "h" }],
          otps := [],
          projects := [{ id := "P", name := "proj", createdAt := 0, ownerId := "A" }],
          collaborators := [],
          issues := [{ id := "I1", title := "Fix login bug", description := none,
                       status := .«open», priority := .medium, createdAt := 2, projectId := "P" },
                     { id := "I2", title := "Fix signup bug", description := none,
                       status := .«open», priority := .medium, createdAt := 1, projectId := "P" }],
          assignees := [] }
        "A" { search := some "login" } :=
  (listIssues_characterization.1 _ "A" _ _).mpr
    ⟨by decide, Or.inl (by decide), by decide, by decide, by decide, by decide⟩

/-! ### C1: PATCH with assigneeIds replaces the assignee set -/

/-- Unfolding of the issue-and-project lookup. -/
theorem findIssueWithProject_eq_some {db : DB} {iid : String} {issue : Issue}
    {project : Project} :
    findIssueWithProject db iid = some (issue, project) ↔
      findIssue db iid = some issue ∧ findProject db issue.projectId = some project := by
  simp only [findIssueWithProject, Option.bind_eq_some, Option.map_eq_some']
  constructor
  · rintro ⟨i, hi, prj, hp, heq⟩
    simp only [Prod.mk.injEq] at heq
    obtain ⟨rfl, rfl⟩ := heq
    exact ⟨hi, hp⟩
  · rintro ⟨hi, hp⟩
    exact ⟨issue, hi, project, hp, rfl⟩

/-- The scalar update leaves the row id unchanged, so looking the issue up
again returns its patched version. -/
theorem findIssue_updateIssueRecord (db : DB) (iid : String) (p : IssuePatch) :
    findIssue (updateIssueRecord db iid p) iid = (findIssue db iid).map (applyPatchFields p) := by
  show (db.issues.map fun i => if i.id == iid then applyPatchFields p i else i).find?
      (fun i => i.id == iid) = _
  rw [List.find?_map]
  have hpred : ((fun i : Issue => i.id == iid) ∘
      fun i => if i.id == iid then applyPatchFields p i else i) = fun i => i.id == iid := by
    funext i
    by_cases h : i.id == iid <;> simp [Function.comp, h, applyPatchFields]
  rw [hpred]
  cases hf : db.issues.find? (fun i => i.id == iid) with
  | none => simp [findIssue, hf]
  | some i0 =>
    have h0 : i0.id = iid := by simpa using List.find?_some hf
    simp [findIssue, hf, h0]

/-- C1: a PATCH by the project owner whose body contains assigneeIds (and
whose nested re-create succeeds) answers ok; afterwards the assignee rows
of the issue are exactly the ids of the patch — prior assignees not listed
are gone — while assignee rows of other issues are untouched, the issue
now carries the patched value of every field present in the patch, and
absent fields keep their prior values; issues other than the patched one
survive unchanged. -/
theorem updateIssue_assigneeIds_replaces
    (db : DB) (uid iid : String) (p : IssuePatch) (issue : Issue) (project : Project)
    (ids : List String)
    (hfind : findIssueWithProject db iid = some (issue, project))
    (howner : project.ownerId = uid)
    (hids : p.assigneeIds = some ids)
    (hok : createManyOk db ids = true) :
    (updateIssue db uid iid p).2 = .ok () ∧
    assigneeIdsOf (updateIssue db uid iid p).1 iid = ids ∧
    (updateIssue db uid iid p).1.assignees.filter (fun a => a.issueId != iid) =
      db.assignees.filter (fun a => a.issueId != iid) ∧
    findIssue (updateIssue db uid iid p).1 iid = some (applyPatchFields p issue) ∧
    (applyPatchFields p issue).title = p.title.getD issue.title ∧
    (applyPatchFields p issue).description = p.description.getD issue.description ∧
    (applyPatchFields p issue).status = p.status.getD issue.status ∧
    (applyPatchFields p issue).priority = p.priority.getD issue.priority ∧
    (∀ j ∈ db.issues, j.id ≠ iid → j ∈ (updateIssue db uid iid p).1.issues) := by
  subst howner
  have hok1 : createManyOk
      { db with assignees := db.assignees.filter (fun a => a.issueId != iid) } ids = true := hok
  have hmain : updateIssue db project.ownerId iid p =
      (updateIssueRecord
        { db with assignees := db.assignees.filter (fun a => a.issueId != iid) ++
            ids.map (fun u => { issueId := iid, userId := u }) } iid p, .ok ()) := by
    unfold updateIssue
    rw [hfind, hids]
    by_cases hemp : ids.isEmpty
    · obtain rfl : ids = [] := List.isEmpty_iff.mp hemp
      simp
    · simp [hemp, hok1]
  rw [hmain]
  have hfi : findIssue db iid = some issue := (findIssueWithProject_eq_some.mp hfind).1
  have hfilter1 : (db.assignees.filter (fun a => a.issueId != iid)).filter
      (fun a => a.issueId == iid) = [] := by
    rw [List.filter_filter]
    simp [bne]
  have hfilter2 : (db.assignees.filter (fun a => a.issueId != iid)).filter
      (fun a => a.issueId != iid) = db.assignees.filter (fun a => a.issueId != iid) := by
    rw [List.filter_filter]
    simp
  refine ⟨rfl, ?_, ?_, ?_, rfl, rfl, rfl, rfl, ?_⟩
  · show ((db.assignees.filter (fun a => a.issueId != iid) ++
      ids.map (fun u => ({ issueId := iid, userId := u } : IssueAssignee))).filter
        (fun a => a.issueId == iid)).map (fun a => a.userId) = ids
    rw [List.filter_append, hfilter1, List.filter_map]
    simp [Function.comp_def]
  · show (db.assignees.filter (fun a => a.issueId != iid) ++
      ids.map (fun u => ({ issueId := iid, userId := u } : IssueAssignee))).filter
        (fun a => a.issueId != iid) = db.assignees.filter (fun a => a.issueId != iid)
    rw [List.filter_append, hfilter2, List.filter_map]
    simp [Function.comp_def, bne]
  · rw [findIssue_updateIssueRecord]
    have : findIssue
        { db with assignees := db.assignees.filter (fun a => a.issueId != iid) ++
            ids.map (fun u => { issueId := iid, userId := u }) } iid = findIssue db iid := rfl
    rw [this, hfi, Option.map_some']
  · intro j hj hne
    refine List.mem_map.mpr ⟨j, hj, ?_⟩
    simp [hne]

/-- Witness for C1 on the spec scenario: an issue assigned to B and C,
patched by the owner with assigneeIds [C], ends with exactly C
assigned. -/
theorem updateIssue_assigneeIds_replaces_witness :
    assigneeIdsOf
      (updateIssue
        { users := [{ id := "A", name := "a", email := "a@x", passwordHash := "h" },
                    { id := "B", name := "b", email := "b@x", passwordHash := "h" },
                    { id := "C", name := "c", email := "c@x", passwordHash := "h" }],
          otps := [],
          projects := [{ id := "P", name := "proj", createdAt := 0, ownerId := "A" }],
          collaborators := [],
          issues := [{ id := "I", title := "t", description := none, status := .«open»,
                       priority := .medium, createdAt := 1, projectId := "P" }],
          assignees := [{ issueId := "I", userId := "B" }, { issueId := "I", userId := "C" }] }
        "A" "I" { assigneeIds := some ["C"] }).1 "I" = ["C"] :=
  (updateIssue_assigneeIds_replaces _ "A" "I" { assigneeIds := some ["C"] }
    { id := "I", title := "t", description := none, status := .«open»,
      priority := .medium, createdAt := 1, projectId := "P" }
    { id := "P", name := "proj", createdAt := 0, ownerId := "A" }
    ["C"] (by decide) rfl rfl (by decide)).2.1

/-! ### C5: forgot-password and account enumeration -/

/-- Counterexample for C5: one registered email and one unregistered email
receive different response bodies, so the two outcomes are distinguishable
by the caller. -/
theorem requestPasswordReset_distinguishable_cex :
    (requestPasswordReset
      { users := [{ id := "A", name := "a", email := "a@x", passwordHash := "h" }],
        otps := [], projects := [], collaborators := [], issues := [], assignees := [] }
      "a@x" 0 0 "o1").message ≠
    (requestPasswordReset
      { users := [{ id := "A", name := "a", email := "a@x", passwordHash := "h" }],
        otps := [], projects := [], collaborators := [], issues := [], assignees := [] }
      "b@x" 0 0 "o1").message := by decide

/-- C5 (amended): requestPasswordReset answers HTTP 200 whether or not a
user with the email exists, but with two different message strings, so the
outcomes are distinguishable by body; when no user matches, nothing is
stored and no mail is sent; when a user matches, exactly one Otp row is
appended whose numeric code lies in [100000, 999999] (six digits) and
whose expiry is 10 minutes after its creation time, and a mail carrying
that code is dispatched to the address. -/
theorem requestPasswordReset_behaviour :
    (∀ (db : DB) (email : String) (now rand : Nat) (oid : String),
      (requestPasswordReset db email now rand oid).status = 200) ∧
    (∀ (db : DB) (email : String) (now rand : Nat) (oid : String),
      db.users.find? (fun u => u.email == email) = none →
      (requestPasswordReset db email now rand oid).db = db ∧
      (requestPasswordReset db email now rand oid).mail = none ∧
      (requestPasswordReset db email now rand oid).message =
        "If a user with that email exists, an OTP has been sent.") ∧
    (∀ (db : DB) (email : String) (now rand : Nat) (oid : String) (u : User),
      db.users.find? (fun u => u.email == email) = some u →
      (requestPasswordReset db email now rand oid).db =
        { db with otps := db.otps ++
            [{ id := oid, email := email, otp := toString (otpCode rand)
               createdAt := now, expiresAt := now + tenMinutesMs }] } ∧
      (requestPasswordReset db email now rand oid).mail = some
        { toAddr := email
          body := "Your OTP for password reset is: " ++ toString (otpCode rand) ++
            ". It will expire in 10 minutes." } ∧
      (requestPasswordReset db email now rand oid).message =
        "OTP sent to your email successfully.") ∧
    (∀ rand : Nat, 100000 ≤ otpCode rand ∧ otpCode rand ≤ 999999) ∧
    tenMinutesMs = 10 * 60 * 1000 := by
  refine ⟨?_, ?_, ?_, ?_, rfl⟩
  · intro db email now rand oid
    cases h : db.users.find? (fun u => u.email == email) <;>
      simp [requestPasswordReset, h]
  · intro db email now rand oid h
    simp [requestPasswordReset, h]
  · intro db email now rand oid u h
    simp [requestPasswordReset, h]
  · intro rand
    have h : rand % 900000 < 900000 := Nat.mod_lt _ (by norm_num)
    unfold otpCode
    omega

/-- Witness for C5 at a concrete state: a matching email gets the Otp row
persisted with a 10-minute expiry. -/
theorem requestPasswordReset_behaviour_witness :
    (requestPasswordReset
      { users := [{ id := "A", name := "a", email := "a@x", passwordHash := "h" }],
        otps := [], projects := [], collaborators := [], issues := [], assignees := [] }
      "a@x" 700 41 "o1").db =
      { users := [{ id := "A", name := "a", email := "a@x", passwordHash := "h" }],
        otps := [{ id := "o1", email := "a@x", otp := "100041",
                   createdAt := 700, expiresAt := 700 + 10 * 60 * 1000 }],
        projects := [], collaborators := [], issues := [], assignees := [] } := by
  have h := (requestPasswordReset_behaviour.2.2.1
    { users := [{ id := "A", name := "a", email := "a@x", passwordHash := "h" }],
      otps := [], projects := [], collaborators := [], issues := [], assignees := [] }
    "a@x" 700 41 "o1" { id := "A", name := "a", email := "a@x", passwordHash := "h" }
    (by decide)).1
  rw [h]
  decide

/-! ### C6: OTP verification -/

/-- When no stored record matches email, code and freshness, verify-otp
rejects with 400 and changes nothing. -/
theorem verifyOtp_fail (db : DB) (email code newHash : String) (now : Nat)
    (h : db.otps.find? (otpMatches email code now) = none) :
    verifyOtp db email code newHash now = (db, .err 400 "Invalid or expired OTP.") := by
  simp [verifyOtp, h]

/-- When a record matches and the user exists, verify-otp rewrites the
password hash and deletes the consumed record. -/
theorem verifyOtp_success (db : DB) (email code newHash : String) (now : Nat) (record : Otp)
    (hfind : db.otps.find? (otpMatches email code now) = some record)
    (hu : ∃ u ∈ db.users, u.email = email) :
    verifyOtp db email code newHash now =
      ({ db with
          users := db.users.map
            (fun u => if u.email == email then { u with passwordHash := newHash } else u)
          otps := db.otps.filter (fun r => r.id != record.id) },
       .ok ()) := by
  obtain ⟨u, hum, hue⟩ := hu
  have hany : db.users.any (fun u => u.email == email) = true :=
    List.any_eq_true.mpr ⟨u, hum, by simp [hue]⟩
  simp [verifyOtp, hfind, hany]

/-- C6: verify-otp fails with the invalid-or-expired error unless a stored
record matches email and code with expiry strictly in the future; on
success (the matched user existing) the password hash is replaced and the
consumed record deleted, so — when that record was the only one with this
email and code — an identical second call fails at any later time; and
whenever every record with this email and code has expired (now at or past
expiresAt), the call fails even with the correct code. -/
theorem verifyOtp_correct :
    (∀ (db : DB) (email code newHash : String) (now : Nat),
      db.otps.find? (otpMatches email code now) = none →
      verifyOtp db email code newHash now = (db, .err 400 "Invalid or expired OTP.")) ∧
    (∀ (db : DB) (email code newHash : String) (now : Nat) (record : Otp),
      db.otps.find? (otpMatches email code now) = some record →
      (∃ u ∈ db.users, u.email = email) →
      verifyOtp db email code newHash now =
        ({ db with
            users := db.users.map
              (fun u => if u.email == email then { u with passwordHash := newHash } else u)
            otps := db.otps.filter (fun r => r.id != record.id) },
         .ok ())) ∧
    (∀ (db : DB) (email code newHash : String) (now : Nat) (record : Otp),
      db.otps.find? (otpMatches email code now) = some record →
      (∃ u ∈ db.users, u.email = email) →
      (∀ r ∈ db.otps, r.email = email → r.otp = code → r = record) →
      ∀ (newHash₂ : String) (now₂ : Nat),
        verifyOtp (verifyOtp db email code newHash now).1 email code newHash₂ now₂ =
          ((verifyOtp db email code newHash now).1, .err 400 "Invalid or expired OTP.")) ∧
    (∀ (db : DB) (email code newHash : String) (now : Nat),
      (∀ r ∈ db.otps, r.email = email → r.otp = code → r.expiresAt ≤ now) →
      verifyOtp db email code newHash now = (db, .err 400 "Invalid or expired OTP.")) := by
  refine ⟨verifyOtp_fail, verifyOtp_success, ?_, ?_⟩
  · intro db email code newHash now record hfind hu huniq newHash₂ now₂
    rw [verifyOtp_success db email code newHash now record hfind hu]
    apply verifyOtp_fail
    refine List.find?_eq_none.mpr fun x hx hmx => ?_
    have hx' : x ∈ db.otps.filter (fun r => r.id != record.id) := hx
    rw [List.mem_filter] at hx'
    obtain ⟨hxm, hxid⟩ := hx'
    simp only [otpMatches, Bool.and_eq_true, beq_iff_eq, decide_eq_true_eq] at hmx
    obtain ⟨⟨he, hc⟩, _⟩ := hmx
    have : x = record := huniq x hxm he hc
    rw [this] at hxid
    simp at hxid
  · intro db email code newHash now hexp
    apply verifyOtp_fail
    refine List.find?_eq_none.mpr fun r hr hm => ?_
    simp only [otpMatches, Bool.and_eq_true, beq_iff_eq, decide_eq_true_eq] at hm
    obtain ⟨⟨he, hc⟩, hlt⟩ := hm
    exact absurd hlt (not_lt.mpr (hexp r hr he hc))

/-- Witness for C6: a valid unexpired code resets the hash and consumes
the record; the amended single-use and expiry parts fire on the same
state. -/
theorem verifyOtp_correct_witness :
    verifyOtp
      { users := [{ id := "A", name := "a", email := "a@x", passwordHash := "oldh" }],
        otps := [{ id := "o1", email := "a@x", otp := "123456",
                   createdAt := 0, expiresAt := 1000 }],
        projects := [], collaborators := [], issues := [], assignees := [] }
      "a@x" "123456" "newh" 500 =
      ({ users := [{ id := "A", name := "a", email := "a@x", passwordHash := "newh" }],
         otps := [], projects := [], collaborators := [], issues := [], assignees := [] },
       .ok ()) := by
  rw [verifyOtp_correct.2.1
    { users := [{ id := "A", name := "a", email := "a@x", passwordHash := "oldh" }],
      otps := [{ id := "o1", email := "a@x", otp := "123456",
                 createdAt := 0, expiresAt := 1000 }],
      projects := [], collaborators := [], issues := [], assignees := [] }
    "a@x" "123456" "newh" 500
    { id := "o1", email := "a@x", otp := "123456", createdAt := 0, expiresAt := 1000 }
    (by decide)
    ⟨{ id := "A", name := "a", email := "a@x", passwordHash := "oldh" }, by decide, rfl⟩]
  decide

/-! ### C8: project list role annotation -/

/-- Counterexample for C8: user B is only an assignee of an issue of
project P (neither owner nor ProjectCollaborator row), yet the project
list annotates P with userRole collaborator while the spec roleOf
resolves to none. -/
theorem listProjects_userRole_cex :
    ((listProjects
      { users := [{ id := "A", name := "a", email := "a@x", passwordHash := "h" },
                  { id := "B", name := "b", email := "b@x", passwordHash := "h" }],
        otps := [],
        projects := [{ id := "P", name := "Roadmap", createdAt := 5, ownerId := "A" }],
        collaborators := [],
        issues := [{ id := "I", title := "t", description := none, status := .«open»,
                     priority := .medium, createdAt := 1, projectId := "P" }],
        assignees := [{ issueId := "I", userId := "B" }] }
      "B").map (fun e => e.userRole) = ["collaborator"]) ∧
    roleOfSpec
      { users := [{ id := "A", name := "a", email := "a@x", passwordHash := "h" },
                  { id := "B", name := "b", email := "b@x", passwordHash := "h" }],
        otps := [],
        projects := [{ id := "P", name := "Roadmap", createdAt := 5, ownerId := "A" }],
        collaborators := [],
        issues := [{ id := "I", title := "t", description := none, status := .«open»,
                     priority := .medium, createdAt := 1, projectId := "P" }],
        assignees := [{ issueId := "I", userId := "B" }] }
      "B" { id := "P", name := "Roadmap", createdAt := 5, ownerId := "A" } = "none" := by
  constructor
  · rfl
  · decide

/-- C8 (amended): every entry of the project list is annotated with
userRole owner exactly when the caller is the project owner (also when
additionally listed as a collaborator, where the spec roleOf agrees), and
with the one other value collaborator for every other listed project —
even one the caller is merely assigned an issue in, where roleOf would
give none; assignedIssuesCount is the number of issues of the project
assigned to the caller; the listed projects are exactly the visible
ones. -/
theorem listProjects_annotations :
    (∀ (db : DB) (uid : String) (e : ProjectEntry), e ∈ listProjects db uid →
      e.userRole = (if e.project.ownerId = uid then "owner" else "collaborator") ∧
      e.assignedIssuesCount = (assignedIssues db uid e.project.id).length ∧
      (e.project.ownerId = uid → roleOfSpec db uid e.project = "owner") ∧
      e.project ∈ db.projects ∧ projectVisible db uid e.project = true) ∧
    (∀ (db : DB) (uid : String) (p : Project), p ∈ db.projects →
      projectVisible db uid p = true → ∃ e ∈ listProjects db uid, e.project = p) := by
  constructor
  · intro db uid e he
    obtain ⟨p, hp, rfl⟩ := List.mem_map.mp he
    have hp' := mem_sortDesc.mp hp
    rw [List.mem_filter] at hp'
    refine ⟨?_, rfl, ?_, hp'.1, hp'.2⟩
    · by_cases h : p.ownerId = uid <;> simp [h]
    · intro h
      have h' : p.ownerId = uid := h
      simp [roleOfSpec, h']
  · intro db uid p hp hv
    exact ⟨_, List.mem_map.mpr ⟨p, mem_sortDesc.mpr (List.mem_filter.mpr ⟨hp, hv⟩), rfl⟩, rfl⟩

/-- Witness for C8 on the spec role-resolution point: a caller who is both
the owner and a collaborator of the project is annotated owner, agreeing
with roleOf. -/
theorem listProjects_annotations_witness :
    ({ project := { id := "P", name := "Roadmap", createdAt := 5, ownerId := "A" },
       userRole := "owner", assignedIssuesCount := 0 } : ProjectEntry).userRole = "owner" ∧
    roleOfSpec
      { users := [{ id := "A", name := "a", email := "a@x", passwordHash := "h" }],
        otps := [],
        projects := [{ id := "P", name := "Roadmap", createdAt := 5, ownerId := "A" }],
        collaborators := [{ projectId := "P", userId := "A" }],
        issues := [], assignees := [] }
      "A" { id := "P", name := "Roadmap", createdAt := 5, ownerId := "A" } = "owner" := by
  have h := listProjects_annotations.1
    { users := [{ id := "A", name := "a", email := "a@x", passwordHash := "h" }],
      otps := [],
      projects := [{ id := "P", name := "Roadmap", createdAt := 5, ownerId := "A" }],
      collaborators := [{ projectId := "P", userId := "A" }],
      issues := [], assignees := [] }
    "A"
    { project := { id := "P", name := "Roadmap", createdAt := 5, ownerId := "A" },
      userRole := "owner", assignedIssuesCount := 0 }
    (by decide)
  exact ⟨(h.1.trans (by decide)), h.2.2.1 rfl⟩

/-! ### C2: atomicity of mutations -/

/-- Counterexample for C2: the owner patches an issue (one prior assignee
B) with assigneeIds naming a nonexistent user; the nested re-create of
the update step fails (foreign key), the call reports a 500 error, yet
the stored state has changed: the prior assignee row of B is already
deleted. -/
theorem updateIssue_atomicity_cex :
    ((updateIssue
      { users := [{ id := "A", name := "a", email := "a@x", passwordHash := "h" },
                  { id := "B", name := "b", email := "b@x", passwordHash := "h" }],
        otps := [],
        projects := [{ id := "P", name := "proj", createdAt := 0, ownerId := "A" }],
        collaborators := [],
        issues := [{ id := "I", title := "t", description := none, status := .«open»,
                     priority := .medium, createdAt := 1, projectId := "P" }],
        assignees := [{ issueId := "I", userId := "B" }] }
      "A" "I" { assigneeIds := some ["ghost"] }).2 = .err 500 "Failed to update issue.") ∧
    (updateIssue
      { users := [{ id := "A", name := "a", email := "a@x", passwordHash := "h" },
                  { id := "B", name := "b", email := "b@x", passwordHash := "h" }],
        otps := [],
        projects := [{ id := "P", name := "proj", createdAt := 0, ownerId := "A" }],
        collaborators := [],
        issues := [{ id := "I", title := "t", description := none, status := .«open»,
                     priority := .medium, createdAt := 1, projectId := "P" }],
        assignees := [{ issueId := "I", userId := "B" }] }
      "A" "I" { assigneeIds := some ["ghost"] }).1 ≠
      { users := [{ id := "A", name := "a", email := "a@x", passwordHash := "h" },
                  { id := "B", name := "b", email := "b@x", passwordHash := "h" }],
        otps := [],
        projects := [{ id := "P", name := "proj", createdAt := 0, ownerId := "A" }],
        collaborators := [],
        issues := [{ id := "I", title := "t", description := none, status := .«open»,
                     priority := .medium, createdAt := 1, projectId := "P" }],
        assignees := [{ issueId := "I", userId := "B" }] } ∧
    (updateIssue
      { users := [{ id := "A", name := "a", email := "a@x", passwordHash := "h" },
                  { id := "B", name := "b", email := "b@x", passwordHash := "h" }],
        otps := [],
        projects := [{ id := "P", name := "proj", createdAt := 0, ownerId := "A" }],
        collaborators := [],
        issues := [{ id := "I", title := "t", description := none, status := .«open»,
                     priority := .medium, createdAt := 1, projectId := "P" }],
        assignees := [{ issueId := "I", userId := "B" }] }
      "A" "I" { assigneeIds := some ["ghost"] }).1.assignees = [] := by
  refine ⟨rfl, ?_, rfl⟩
  decide

/-- Issue creation either succeeds or leaves the state untouched. -/
theorem createIssue_cases (db : DB) (uid title : String) (d : Option String)
    (pr : Option Priority) (pid : String) (aids : JsArr) (nid : String) (now : Nat) :
    (createIssue db uid title d pr pid aids nid now).1 = db ∨
    (createIssue db uid title d pr pid aids nid now).2 = .ok () := by
  unfold createIssue
  repeat' split
  all_goals try simp
  all_goals repeat' split
  all_goals simp

/-- Project creation either succeeds or leaves the state untouched. -/
theorem createProject_cases (db : DB) (uid name : String) (cids : Option (List String))
    (nid : String) (now : Nat) :
    (createProject db uid name cids nid now).1 = db ∨
    (createProject db uid name cids nid now).2 = .ok () := by
  unfold createProject
  repeat' split
  all_goals try simp
  all_goals repeat' split
  all_goals simp

/-- Unassign either succeeds or leaves the state untouched. -/
theorem unassignUsers_cases (db : DB) (uid iid : String) (userIds : JsArr) :
    (unassignUsers db uid iid userIds).1 = db ∨
    (unassignUsers db uid iid userIds).2.isOk = true := by
  unfold unassignUsers
  repeat' split
  all_goals simp [ApiResult.isOk]

/-- Delete either succeeds or leaves the state untouched. -/
theorem deleteIssue_cases (db : DB) (uid iid : String) :
    (deleteIssue db uid iid).1 = db ∨
    (deleteIssue db uid iid).2 = .ok () := by
  unfold deleteIssue
  repeat' split
  all_goals simp

/-- A PATCH without assigneeIds either succeeds or leaves the state
untouched. -/
theorem updateIssue_noAssignee_cases (db : DB) (uid iid : String) (p : IssuePatch)
    (hids : p.assigneeIds = none) :
    (updateIssue db uid iid p).1 = db ∨
    (updateIssue db uid iid p).2 = .ok () := by
  unfold updateIssue
  rw [hids]
  repeat' split
  all_goals try simp
  all_goals repeat' split
  all_goals simp_all

/-- A PATCH with assigneeIds that reports the 500 update failure has
nevertheless already deleted the assignee rows of the issue. -/
theorem updateIssue_err500_state (db : DB) (uid iid : String) (p : IssuePatch)
    (ids : List String) (hids : p.assigneeIds = some ids)
    (h : (updateIssue db uid iid p).2 = .err 500 "Failed to update issue.") :
    (updateIssue db uid iid p).1 =
      { db with assignees := db.assignees.filter (fun a => a.issueId != iid) } := by
  unfold updateIssue at h ⊢
  rw [hids] at h ⊢
  cases hf : findIssueWithProject db iid with
  | none =>
    rw [hf] at h
    simp at h
  | some ip =>
    obtain ⟨issue, project⟩ := ip
    rw [hf] at h
    by_cases ho : (project.ownerId != uid) = true
    · simp [ho] at h
    · rw [Bool.not_eq_true] at ho
      by_cases he : ids.isEmpty
      · simp [ho, he] at h
      · by_cases hcm : createManyOk
            { db with assignees := db.assignees.filter (fun a => a.issueId != iid) } ids = true
        · simp [ho, he, hcm] at h
        · simp [ho, he, hcm]

/-- C2 (amended): issue creation (with its nested assignee rows), project
creation (with its nested collaborator rows), unassign, delete, and a
PATCH without assigneeIds are atomic — an error response leaves the state
exactly as it was; but a PATCH with assigneeIds deletes the prior
assignee rows of the issue in a standalone statement before the update,
so when its update step fails with the 500 error those rows are already
gone; and assign creates its rows one by one, so a foreign-key failure
can leave the rows created before it in place, as a concrete run
shows. -/
theorem mutation_atomicity_characterization :
    (∀ (db : DB) (uid title : String) (d : Option String) (pr : Option Priority)
        (pid : String) (aids : JsArr) (nid : String) (now s : Nat) (m : String),
      (createIssue db uid title d pr pid aids nid now).2 = .err s m →
      (createIssue db uid title d pr pid aids nid now).1 = db) ∧
    (∀ (db : DB) (uid name : String) (cids : Option (List String)) (nid : String)
        (now s : Nat) (m : String),
      (createProject db uid name cids nid now).2 = .err s m →
      (createProject db uid name cids nid now).1 = db) ∧
    (∀ (db : DB) (uid iid : String) (userIds : JsArr) (s : Nat) (m : String),
      (unassignUsers db uid iid userIds).2 = .err s m →
      (unassignUsers db uid iid userIds).1 = db) ∧
    (∀ (db : DB) (uid iid : String) (s : Nat) (m : String),
      (deleteIssue db uid iid).2 = .err s m →
      (deleteIssue db uid iid).1 = db) ∧
    (∀ (db : DB) (uid iid : String) (p : IssuePatch) (s : Nat) (m : String),
      p.assigneeIds = none →
      (updateIssue db uid iid p).2 = .err s m →
      (updateIssue db uid iid p).1 = db) ∧
    (∀ (db : DB) (uid iid : String) (p : IssuePatch) (ids : List String),
      p.assigneeIds = some ids →
      (updateIssue db uid iid p).2 = .err 500 "Failed to update issue." →
      (updateIssue db uid iid p).1 =
        { db with assignees := db.assignees.filter (fun a => a.issueId != iid) }) ∧
    assignUsers
      { users := [{ id := "A", name := "a", email := "a@x", passwordHash := "h" },
                  { id := "C", name := "c", email := "c@x", passwordHash := "h" }],
        otps := [],
        projects := [{ id := "P", name := "proj", createdAt := 0, ownerId := "A" }],
        collaborators := [],
        issues := [{ id := "I", title := "t", description := none, status := .«open»,
                     priority := .medium, createdAt := 1, projectId := "P" }],
        assignees := [] }
      "A" "I" (.arr ["C", "ghost"]) =
      ({ users := [{ id := "A", name := "a", email := "a@x", passwordHash := "h" },
                   { id := "C", name := "c", email := "c@x", passwordHash := "h" }],
         otps := [],
         projects := [{ id := "P", name := "proj", createdAt := 0, ownerId := "A" }],
         collaborators := [],
         issues := [{ id := "I", title := "t", description := none, status := .«open»,
                      priority := .medium, createdAt := 1, projectId := "P" }],
         assignees := [{ issueId := "I", userId := "C" }] },
       .err 500 "Failed to assign users.") := by
  refine ⟨?_, ?_, ?_, ?_, ?_, updateIssue_err500_state, by decide⟩
  · intro db uid title d pr pid aids nid now s m h
    rcases createIssue_cases db uid title d pr pid aids nid now with hc | hc
    · exact hc
    · rw [hc] at h; cases h
  · intro db uid name cids nid now s m h
    rcases createProject_cases db uid name cids nid now with hc | hc
    · exact hc
    · rw [hc] at h; cases h
  · intro db uid iid userIds s m h
    rcases unassignUsers_cases db uid iid userIds with hc | hc
    · exact hc
    · rw [h] at hc; simp [ApiResult.isOk] at hc
  · intro db uid iid s m h
    rcases deleteIssue_cases db uid iid with hc | hc
    · exact hc
    · rw [hc] at h; cases h
  · intro db uid iid p s m hids h
    rcases updateIssue_noAssignee_cases db uid iid p hids with hc | hc
    · exact hc
    · rw [hc] at h; cases h

/-- Witness for C2 (amended): a create on a nonexistent project errors
and leaves the concrete state unchanged. -/
theorem mutation_atomicity_characterization_witness :
    (createIssue
      { users := [{ id := "A", name := "a", email := "a@x", passwordHash := "h" }],
        otps := [], projects := [], collaborators := [], issues := [], assignees := [] }
      "A" "t" none none "P" .missing "I" 9).1 =
      { users := [{ id := "A", name := "a", email := "a@x", passwordHash := "h" }],
        otps := [], projects := [], collaborators := [], issues := [], assignees := [] } :=
  mutation_atomicity_characterization.1 _ "A" "t" none none "P" .missing "I" 9 404
    "Project not found." (by decide)

/-! ### C9: assign is idempotent -/

/-- linkCount as a countP, for counting lemmas. -/
theorem linkCount_eq_countP (db : DB) (iid u : String) :
    linkCount db iid u = db.assignees.countP (fun a => a.issueId == iid && a.userId == u) :=
  (List.countP_eq_length_filter _ _).symm

/-- The presence probe of the assign loop is equivalent to a positive
row count. -/
theorem any_link_iff_linkCount_pos (db : DB) (iid u : String) :
    db.assignees.any (fun a => a.issueId == iid && a.userId == u) = true ↔
      0 < linkCount db iid u := by
  rw [linkCount_eq_countP, List.any_eq_true, List.countP_pos_iff]

/-- Under the unique constraint (modelled as row-level Nodup of the join
table, as each row is exactly the pair), every issue-user pair has at most
one row. -/
theorem linkCount_le_one_of_nodup (db : DB) (hnd : db.assignees.Nodup) (iid u : String) :
    linkCount db iid u ≤ 1 := by
  rw [linkCount_eq_countP]
  have hcnt : db.assignees.countP (fun a => a.issueId == iid && a.userId == u) =
      db.assignees.count { issueId := iid, userId := u } := by
    refine List.countP_congr fun a _ => ?_
    cases a with
    | mk ai au => simp [Bool.and_eq_true, beq_iff_eq, IssueAssignee.mk.injEq, List.count]
  rw [hcnt]
  exact List.nodup_iff_count_le_one.mp hnd _

/-- Appending one assignee row bumps exactly the count of its own pair. -/
theorem linkCount_append_one (db : DB) (iid u iid2 u2 : String) :
    linkCount { db with assignees := db.assignees ++ [{ issueId := iid2, userId := u2 }] } iid u =
      linkCount db iid u + (if iid2 = iid ∧ u2 = u then 1 else 0) := by
  unfold linkCount
  simp only [List.filter_append, List.length_append]
  congr 1
  by_cases h : iid2 = iid ∧ u2 = u
  · obtain ⟨rfl, rfl⟩ := h
    simp [List.filter]
  · rw [if_neg h]
    simp only [List.filter, List.length_nil]
    by_cases h1 : iid2 = iid
    · have h2 : (u2 == u) = false := beq_eq_false_iff_ne.mpr fun hu => h ⟨h1, hu⟩
      simp [h1, h2]
    · have h1' : (iid2 == iid) = false := beq_eq_false_iff_ne.mpr h1
      simp [h1']

/-- The per-id create loop of assign: when every id references an existing
user and the table satisfies the unique constraint, the loop succeeds,
gives every processed id exactly one row for the issue, leaves other
users' counts alone, and touches no other table. -/
theorem assignLoop_spec (iid : String) (us : List String) : ∀ (db : DB),
    (∀ v ∈ us, userExists db v = true) →
    (∀ v, linkCount db iid v ≤ 1) →
    (assignLoop db iid us).2 = true ∧
    (∀ v, linkCount (assignLoop db iid us).1 iid v =
      if v ∈ us then 1 else linkCount db iid v) ∧
    (assignLoop db iid us).1.users = db.users ∧
    (assignLoop db iid us).1.issues = db.issues ∧
    (assignLoop db iid us).1.projects = db.projects := by
  induction us with
  | nil =>
    intro db hall hinv
    simp [assignLoop]
  | cons u us ih =>
    intro db hall hinv
    simp only [assignLoop]
    by_cases hpres : db.assignees.any (fun a => a.issueId == iid && a.userId == u) = true
    · rw [if_pos hpres]
      have hcount : linkCount db iid u = 1 := by
        have hpos := (any_link_iff_linkCount_pos db iid u).mp hpres
        have hle := hinv u
        omega
      obtain ⟨hs, hc, hu, hi, hp⟩ := ih db (fun v hv => hall v (List.mem_cons_of_mem _ hv)) hinv
      refine ⟨hs, ?_, hu, hi, hp⟩
      intro v
      rw [hc v]
      by_cases hv : v ∈ us
      · simp [hv]
      · by_cases hvu : v = u
        · subst hvu
          simp [hv, hcount]
        · simp [hv, hvu]
    · rw [if_neg hpres]
      have hex : userExists db u = true := hall u (List.mem_cons_self u us)
      rw [hex, if_pos rfl]
      have h0 : linkCount db iid u = 0 := by
        by_contra hnz
        exact hpres ((any_link_iff_linkCount_pos db iid u).mpr (Nat.pos_of_ne_zero hnz))
      have hall2 : ∀ v ∈ us,
          userExists { db with assignees := db.assignees ++ [{ issueId := iid, userId := u }] }
            v = true := fun v hv => hall v (List.mem_cons_of_mem _ hv)
      have hinv2 : ∀ v, linkCount
          { db with assignees := db.assignees ++ [{ issueId := iid, userId := u }] } iid v ≤ 1 := by
        intro v
        rw [linkCount_append_one]
        by_cases hvu : u = v
        · subst hvu
          simp [h0]
        · simpa [hvu] using hinv v
      obtain ⟨hs, hc, hu, hi, hp⟩ := ih _ hall2 hinv2
      refine ⟨hs, ?_, hu, hi, hp⟩
      intro v
      rw [hc v]
      by_cases hv : v ∈ us
      · simp [hv]
      · by_cases hvu : v = u
        · subst hvu
          rw [linkCount_append_one]
          simp [hv, h0]
        · rw [linkCount_append_one]
          have hvu' : ¬(u = v) := fun hx => hvu hx.symm
          simp [hv, hvu, hvu']

/-- When every id is already assigned, the loop is a no-op that
succeeds. -/
theorem assignLoop_all_present (iid : String) (us : List String) : ∀ (db : DB),
    (∀ v ∈ us, 0 < linkCount db iid v) →
    assignLoop db iid us = (db, true) := by
  induction us with
  | nil =>
    intro db _
    rfl
  | cons u us ih =>
    intro db h
    simp only [assignLoop]
    rw [if_pos ((any_link_iff_linkCount_pos db iid u).mpr (h u (List.mem_cons_self u us)))]
    exact ih db (fun v hv => h v (List.mem_cons_of_mem _ hv))

/-- C9: when the project owner assigns a non-empty list of existing users
to an existing issue over a table satisfying the unique constraint, the
call succeeds with no error even if some listed users were already
assigned; afterwards every listed user has exactly one assignment row for
the issue and the constraint still holds; and running the identical call
again changes nothing (idempotence). -/
theorem assignUsers_idempotent
    (db : DB) (uid iid : String) (ids : List String) (issue : Issue) (project : Project)
    (hfind : findIssueWithProject db iid = some (issue, project))
    (howner : project.ownerId = uid)
    (hne : ids ≠ [])
    (hall : ∀ v ∈ ids, userExists db v = true)
    (hnd : db.assignees.Nodup) :
    (assignUsers db uid iid (.arr ids)).2 = .ok () ∧
    (∀ v ∈ ids, linkCount (assignUsers db uid iid (.arr ids)).1 iid v = 1) ∧
    (∀ v, linkCount (assignUsers db uid iid (.arr ids)).1 iid v ≤ 1) ∧
    assignUsers (assignUsers db uid iid (.arr ids)).1 uid iid (.arr ids) =
      ((assignUsers db uid iid (.arr ids)).1, .ok ()) := by
  subst howner
  obtain ⟨x, xs, rfl⟩ : ∃ x xs, ids = x :: xs := by
    cases ids with
    | nil => cases hne rfl
    | cons a as => exact ⟨a, as, rfl⟩
  have hinv : ∀ v, linkCount db iid v ≤ 1 := linkCount_le_one_of_nodup db hnd iid
  obtain ⟨hs, hc, hu, hi, hp⟩ := assignLoop_spec iid (x :: xs) db hall hinv
  have hvalid : validArr (.arr (x :: xs)) = some (x :: xs) := rfl
  have hmain : assignUsers db project.ownerId iid (.arr (x :: xs)) =
      ((assignLoop db iid (x :: xs)).1, .ok ()) := by
    simp [assignUsers, hvalid, hfind, hs]
  rw [hmain]
  refine ⟨rfl, ?_, ?_, ?_⟩
  · intro v hv
    rw [hc v]
    simp [hv]
  · intro v
    rw [hc v]
    by_cases hv : v ∈ x :: xs
    · simp [hv]
    · simp [hv, hinv v]
  · have hfind2 : findIssueWithProject (assignLoop db iid (x :: xs)).1 iid =
        some (issue, project) := by
      rw [findIssueWithProject_congr iid hi hp]
      exact hfind
    have hloop2 := assignLoop_all_present iid (x :: xs) (assignLoop db iid (x :: xs)).1
      (fun v hv => by rw [hc v]; simp [hv])
    simp [assignUsers, hvalid, hfind2, hloop2]

/-- Witness for C9: assigning an already-assigned user raises no error,
keeps a single row, and repeating the call is a no-op. -/
theorem assignUsers_idempotent_witness :
    (assignUsers
      { users := [{ id := "A", name := "a", email := "a@x", passwordHash := "h" },
                  { id := "B", name := "b", email := "b@x", passwordHash := "h" }],
        otps := [],
        projects := [{ id := "P", name := "proj", createdAt := 0, ownerId := "A" }],
        collaborators := [],
        issues := [{ id := "I", title := "t", description := none, status := .«open»,
                     priority := .medium, createdAt := 1, projectId := "P" }],
        assignees := [{ issueId := "I", userId := "B" }] }
      "A" "I" (.arr ["B"])).2 = .ok () ∧
    linkCount
      (assignUsers
        { users := [{ id := "A", name := "a", email := "a@x", passwordHash := "h" },
                    { id := "B", name := "b", email := "b@x", passwordHash := "h" }],
          otps := [],
          projects := [{ id := "P", name := "proj", createdAt := 0, ownerId := "A" }],
          collaborators := [],
          issues := [{ id := "I", title := "t", description := none, status := .«open»,
                       priority := .medium, createdAt := 1, projectId := "P" }],
          assignees := [{ issueId := "I", userId := "B" }] }
        "A" "I" (.arr ["B"])).1 "I" "B" = 1 := by
  have h := assignUsers_idempotent
    { users := [{ id := "A", name := "a", email := "a@x", passwordHash := "h" },
                { id := "B", name := "b", email := "b@x", passwordHash := "h" }],
      otps := [],
      projects := [{ id := "P", name := "proj", createdAt := 0, ownerId := "A" }],
      collaborators := [],
      issues := [{ id := "I", title := "t", description := none, status := .«open»,
                   priority := .medium, createdAt := 1, projectId := "P" }],
      assignees := [{ issueId := "I", userId := "B" }] }
    "A" "I" ["B"]
    { id := "I", title := "t", description := none, status := .«open»,
      priority := .medium, createdAt := 1, projectId := "P" }
    { id := "P", name := "proj", createdAt := 0, ownerId := "A" }
    (by decide) rfl (by decide) (by decide) (by decide)
  exact ⟨h.1, h.2.1 "B" (by decide)⟩

end SyncFlow
